import Mathlib

/-!
Verification development for the CarScratch vehicle-information aggregator.

The TypeScript sources under `src/lib` are shallowly embedded below:
pure functions become Lean functions on `String`/`List Char`, the async
orchestration in `aggregator.ts` becomes explicit `Except`-passing over an
environment of fetcher results, and the JavaScript regular expressions used
by the code are embedded as specialized whole-string / search matchers.
All strings handled by these functions are ASCII, for which the embedded
`toUpperCase`/`toLowerCase`/`trim`/`.length` agree exactly with the
JavaScript originals.
-/

namespace CarScratch

/-- JavaScript `\s` (whitespace class), restricted to the ASCII whitespace
characters plus NBSP; all inputs in this development are ASCII. -/
def jsWhitespace (c : Char) : Bool :=
  c = ' ' || c = '\t' || c = '\n' || c = '\r' || c.toNat = 11 || c.toNat = 12 || c.toNat = 160

/-- JavaScript `String.prototype.trim` on a character list. -/
def jsTrimList (l : List Char) : List Char :=
  ((l.dropWhile jsWhitespace).reverse.dropWhile jsWhitespace).reverse

/-- JavaScript `String.prototype.trim`. -/
def jsTrim (s : String) : String := ⟨jsTrimList s.data⟩

/-- JavaScript `toUpperCase` (ASCII range; `Char.toUpper` maps a-z to A-Z). -/
def jsToUpperString (s : String) : String := ⟨s.data.map Char.toUpper⟩

/-- JavaScript `toLowerCase` (ASCII range). -/
def jsToLowerString (s : String) : String := ⟨s.data.map Char.toLower⟩

/-- JavaScript `.replace(/\s/g, '')`: remove every whitespace character. -/
def stripWs (s : String) : String := ⟨s.data.filter (fun c => !jsWhitespace c)⟩

/-- `registration.toUpperCase().replace(/\s/g, '')` — the canonical plate
form computed at the top of `getVehicleInfo` (aggregator.ts line 121). -/
def normalizeReg (s : String) : String := stripWs (jsToUpperString s)

/-- Truthiness of an optional JavaScript string: `undefined` and `""` are falsy. -/
def jsTruthyStr (o : Option String) : Bool :=
  match o with
  | some s => s ≠ ""
  | none => false

/-- JavaScript `a || b` for an optional string with a string default
(`""` is falsy, so it also falls through to the default). -/
def jsOrStr (o : Option String) (d : String) : String :=
  match o with
  | some s => if s = "" then d else s
  | none => d

/-- JavaScript `a || b` where both operands are optional strings. -/
def jsOrOptStr (a b : Option String) : Option String :=
  match a with
  | some s => if s = "" then b else some s
  | none => b

/-! ## iom-detector.ts -/

/-- The character class `[\s-]` used by `isManxPlate`'s normalization. -/
def isWsOrHyphen (c : Char) : Bool := jsWhitespace c || c = '-'

/-- `.replace(/[\s-]+/g, ' ')`: each maximal run of whitespace/hyphen
characters is replaced by a single space. -/
def collapseWsHyphenRuns : List Char → List Char
  | [] => []
  | [c] => if isWsOrHyphen c then [' '] else [c]
  | c :: d :: rest =>
    if isWsOrHyphen c then
      if isWsOrHyphen d then collapseWsHyphenRuns (d :: rest)
      else ' ' :: collapseWsHyphenRuns (d :: rest)
    else c :: collapseWsHyphenRuns (d :: rest)

/-- `registration.toUpperCase().replace(/[\s-]+/g, ' ').trim()`
(iom-detector.ts line 31). -/
def iomNormalize (s : String) : String :=
  ⟨jsTrimList (collapseWsHyphenRuns (jsToUpperString s).data)⟩

/-- Case-insensitive comparison of a character against an uppercase target
(the `/i` flag on the IoM patterns). -/
def ciIs (c t : Char) : Bool := c.toUpper = t

/-- Matcher for the common tail `\s*\d+\s*[A-Z]?$` of the IoM patterns
(with `/i`, `[A-Z]` matches any ASCII letter). -/
def matchNumTail (l : List Char) : Bool :=
  let l1 := l.dropWhile jsWhitespace
  let digits := l1.takeWhile Char.isDigit
  let rest := (l1.dropWhile Char.isDigit).dropWhile jsWhitespace
  !digits.isEmpty &&
    (match rest with
     | [] => true
     | [c] => c.isAlpha
     | _ => false)

/-- `/^([A-Z])MN\s*\d+\s*[A-Z]?$/i` — classic format (PMN 147 E). -/
def iomPattern1 : List Char → Bool
  | a :: m :: n :: rest => a.isAlpha && ciIs m 'M' && ciIs n 'N' && matchNumTail rest
  | _ => false

/-- `/^MAN\s*\d+\s*[A-Z]?$/i` — MAN literal (MAN 123). -/
def iomPattern2 : List Char → Bool
  | m :: a :: n :: rest => ciIs m 'M' && ciIs a 'A' && ciIs n 'N' && matchNumTail rest
  | _ => false

/-- `/^MANX\s*\d+\s*[A-Z]?$/i` — MANX literal (MANX 1). -/
def iomPattern3 : List Char → Bool
  | m :: a :: n :: x :: rest =>
      ciIs m 'M' && ciIs a 'A' && ciIs n 'N' && ciIs x 'X' && matchNumTail rest
  | _ => false

/-- `/^\d+-MN-\d+$/i` — modern hyphenated format (1-MN-00). -/
def iomPattern4 (l : List Char) : Bool :=
  let ds := l.takeWhile Char.isDigit
  let rest := l.dropWhile Char.isDigit
  !ds.isEmpty &&
    (match rest with
     | '-' :: m :: n :: '-' :: rest2 =>
         ciIs m 'M' && ciIs n 'N' && !rest2.isEmpty && rest2.all Char.isDigit
     | _ => false)

/-- The shared `MN\s*\d+\s*[A-Z]?$` tail of patterns 1 and 5. -/
def matchMNTail : List Char → Bool
  | m :: n :: rest => ciIs m 'M' && ciIs n 'N' && matchNumTail rest
  | _ => false

/-- `/^[A-Z]{1,2}MN\s*\d+\s*[A-Z]?$/i` — one- or two-letter MN prefix. -/
def iomPattern5 : List Char → Bool
  | a :: rest =>
      a.isAlpha &&
        (matchMNTail rest ||
          (match rest with
           | b :: rest2 => b.isAlpha && matchMNTail rest2
           | [] => false))
  | [] => false

/-- `IOM_PATTERNS` (iom-detector.ts lines 5-25), in source order. -/
def iomPatterns : List (List Char → Bool) :=
  [iomPattern1, iomPattern2, iomPattern3, iomPattern4, iomPattern5]

/-- `isManxPlate` (iom-detector.ts lines 30-40): each pattern is tested
against both the space-normalized form and its whitespace-stripped form. -/
def isManxPlate (registration : String) : Bool :=
  let normalized := iomNormalize registration
  iomPatterns.any (fun p => p normalized.data || p (stripWs normalized).data)

/-! ## Data model (types.ts, scraper interface, iom-scraper interface) -/

/-- `VehicleData['taxStatus']` (types.ts line 11). -/
inductive TaxStatus
  | taxed
  | sorn
  | untaxed
  | notTaxedForOnRoadUse
deriving DecidableEq

/-- `VehicleData['motStatus']` (types.ts line 13). -/
inductive MotStatus
  | valid
  | noDetailsHeldByDVLA
  | notValid
deriving DecidableEq

/-- `VehicleData` (types.ts lines 2-20). `engineCapacity` is an `Option Int`
whose `none` models the JavaScript value NaN, which the scraped-record
synthesis can produce. -/
structure VehicleData where
  registrationNumber : String
  make : String
  model : Option String
  colour : String
  fuelType : String
  engineCapacity : Option Int
  co2Emissions : Option Int
  yearOfManufacture : Nat
  taxStatus : TaxStatus
  taxDueDate : Option String
  motStatus : MotStatus
  motExpiryDate : Option String
  dateOfLastV5CIssued : Option String
  wheelplan : Option String
  monthOfFirstRegistration : Option String
  euroStatus : Option String
  markedForExport : Option Bool
deriving DecidableEq

/-- `MOTDefect` (types.ts lines 33-37); the `type` vocabulary as strings. -/
structure MOTDefect where
  text : String
  type : String
  dangerous : Option Bool
deriving DecidableEq

/-- `MOTTest` (types.ts lines 23-31). -/
structure MOTTest where
  completedDate : String
  testResult : String
  expiryDate : Option String
  odometerValue : Nat
  odometerUnit : String
  motTestNumber : String
  rfrAndComments : List MOTDefect
deriving DecidableEq

/-- `MOTHistory` (types.ts lines 40-48). -/
structure MOTHistory where
  registration : String
  make : String
  model : String
  firstUsedDate : Option String
  fuelType : Option String
  primaryColour : Option String
  motTests : List MOTTest
deriving DecidableEq

/-- `ScrapedExtras` (types.ts lines 51-78). -/
structure ScrapedExtras where
  bhp : Option Nat
  topSpeed : Option String
  zeroToSixty : Option String
  insuranceGroup : Option String
  ulezCompliant : Option Bool
  cazCompliant : Option Bool
  previousPrice : Option String
  previousMileage : Option String
  bodyStyle : Option String
  registrationLocation : Option String
  previousUKRegistration : Option String
  dateOfFirstRegistrationIOM : Option String
  modelVariant : Option String
  category : Option String
  sources : Option (List String)
deriving DecidableEq

/-- `InsuranceStatus` (types.ts lines 81-85); never populated by the aggregator. -/
structure InsuranceStatus where
  insured : Option Bool
  message : Option String
  checkedAt : String
deriving DecidableEq

/-- `ScrapedVehicleData` (scraper interface, lines 3-37 of the scraper module). -/
structure ScrapedVehicleData where
  manufacturer : Option String
  model : Option String
  modelDetail : Option String
  colour : Option String
  bodyStyle : Option String
  fuelType : Option String
  engineSize : Option String
  euroStatus : Option String
  yearOfManufacture : Option Nat
  bhp : Option Nat
  topSpeed : Option String
  zeroToSixty : Option String
  insuranceGroup : Option String
  motStatus : Option String
  taxStatus : Option String
  ulezCompliant : Option Bool
  cazCompliant : Option Bool
  previousPrice : Option String
  previousMileage : Option String
  registrationLocation : Option String
  scrapedFrom : Option String
  scrapedAt : Option String
deriving DecidableEq

/-- The `_debug` payload of `IOMVehicleData` (iom-scraper interface). -/
structure IOMDebugInfo where
  url : Option String
  htmlPreview : Option String
  error : Option String
deriving DecidableEq

/-- `IOMVehicleData` (iom-scraper interface, lines 4-27 of the IoM module). -/
structure IOMVehicleData where
  registrationNumber : String
  make : Option String
  model : Option String
  modelVariant : Option String
  category : Option String
  colour : Option String
  cubicCapacity : Option Nat
  fuelType : Option String
  co2Emissions : Option Int
  dateOfFirstRegistration : Option String
  previousUKRegistration : Option String
  dateOfFirstRegistrationIOM : Option String
  wheelPlan : Option String
  taxStatus : Option String
  taxExpiryDate : Option String
  scrapedAt : Option String
  debug : Option IOMDebugInfo
deriving DecidableEq

/-- `VehicleInfo` (types.ts lines 88-97) — the aggregate result. -/
structure VehicleInfo where
  registration : String
  vehicle : Option VehicleData
  motHistory : Option MOTHistory
  extras : Option ScrapedExtras
  insurance : Option InsuranceStatus
  ukVehicle : Option VehicleData
  isManx : Option Bool
  error : Option String
deriving DecidableEq

/-! ## Sanitizers (aggregator.ts lines 16-112) -/

/-- Does `pat` occur at the head of `l`? (building block for substring tests) -/
def leadsWith : List Char → List Char → Bool
  | [], _ => true
  | _ :: _, [] => false
  | p :: ps, c :: cs => p = c && leadsWith ps cs

/-- Does `pat` occur as a contiguous segment of `l`? (JavaScript
`String.prototype.includes` / an unanchored regex literal search) -/
def containsSeg (pat : List Char) : List Char → Bool
  | [] => leadsWith pat []
  | c :: cs => leadsWith pat (c :: cs) || containsSeg pat cs

/-- The double-quote character, by code point. -/
def quoteChar : Char := Char.ofNat 34

/-- `/<[^>]*>/.test s`: a `<` followed (not necessarily adjacently) by a `>`. -/
def containsHtmlTag : List Char → Bool
  | [] => false
  | '<' :: rest => rest.contains '>' || containsHtmlTag rest
  | _ :: rest => containsHtmlTag rest

/-- `/[<>"]/.test s`. -/
def containsAngleOrQuote (l : List Char) : Bool :=
  l.any (fun c => c = '<' || c = '>' || c = quoteChar)

/-- The `garbagePatterns` deny-list of `sanitizeScrapedString`
(aggregator.ts lines 32-42), applied to the trimmed value:
`/^n\/?a$/i`, `/^-$/`, `/^unknown$/i`, `/^not available$/i`,
`/company offers/i`, `/settlement figure/i`, `/click here/i`,
`/learn more/i`, `/^\s*$/`. -/
def garbageTest (trimmed : List Char) : Bool :=
  let lower := trimmed.map Char.toLower
  (lower = ['n', 'a'] || lower = ['n', '/', 'a']) ||
  trimmed = ['-'] ||
  lower = "unknown".data ||
  lower = "not available".data ||
  containsSeg "company offers".data lower ||
  containsSeg "settlement figure".data lower ||
  containsSeg "click here".data lower ||
  containsSeg "learn more".data lower ||
  trimmed.all jsWhitespace

/-- `sanitizeScrapedString` (aggregator.ts lines 16-47). The source's default
`maxLength = 100` is passed explicitly at each call site below. -/
def sanitizeScrapedString (value : Option String) (maxLength : Nat) : Option String :=
  match value with
  | none => none
  | some v =>
    if v = "" then none
    else
      let trimmed := jsTrim v
      if trimmed = "" then none
      else if containsHtmlTag trimmed.data || containsAngleOrQuote trimmed.data then none
      else if maxLength < trimmed.length then none
      else if garbageTest trimmed.data then none
      else some trimmed

/-- `/^(\d{1,2}[A-Z]?)$/i` of `sanitizeInsuranceGroup`: the whole trimmed
value is 1-2 digits with an optional trailing letter; returns the capture. -/
def insGroupFull (l : List Char) : Option (List Char) :=
  match l with
  | [d] => if d.isDigit then some [d] else none
  | [d, x] =>
      if d.isDigit && (x.isDigit || x.isAlpha) then some [d, x] else none
  | [d1, d2, x] =>
      if d1.isDigit && d2.isDigit && x.isAlpha then some [d1, d2, x] else none
  | _ => none

/-- JavaScript regex word character (`\w`), for `\b` boundaries. -/
def isWordChar (c : Char) : Bool := c.isAlpha || c.isDigit || c = '_'

/-- First match of `/\b(\d{1,2})\b/` in a list, given the previous character
(`none` at the string start); returns the captured digits. -/
def findBoundedNum : Option Char → List Char → Option (List Char)
  | _, [] => none
  | prev, c :: cs =>
    let boundaryOk := match prev with
      | none => true
      | some p => !isWordChar p
    if boundaryOk && c.isDigit then
      match cs with
      | [] => some [c]
      | d :: rest =>
        if d.isDigit && (match rest with | [] => true | r :: _ => !isWordChar r) then
          some [c, d]
        else if !isWordChar d then some [c]
        else findBoundedNum (some c) cs
    else findBoundedNum (some c) cs

/-- Numeric value of a digit list (JavaScript `parseInt(·, 10)` on an
all-digit string). -/
def digitsToNat (l : List Char) : Nat :=
  l.foldl (fun a c => a * 10 + (c.toNat - 48)) 0

/-- `sanitizeInsuranceGroup` (aggregator.ts lines 52-65). -/
def sanitizeInsuranceGroup (value : Option String) : Option String :=
  match value with
  | none => none
  | some v =>
    if v = "" then none
    else
      let trimmed := jsTrim v
      match insGroupFull trimmed.data with
      | some m => some ⟨m.map Char.toUpper⟩
      | none =>
        match findBoundedNum none trimmed.data with
        | some num => if digitsToNat num ≤ 50 then some ⟨num⟩ else none
        | none => none

/-- Match of `[£$€]?\s*[\d,]+` at the head of a list. -/
def priceTokAt (l : List Char) : Bool :=
  let l1 := match l with
    | c :: cs => if c = '£' || c = '$' || c = '€' then cs else l
    | [] => l
  match l1.dropWhile jsWhitespace with
  | c :: _ => c.isDigit || c = ','
  | [] => false

/-- Unanchored search for `/[£$€]?\s*[\d,]+/`. -/
def containsPriceTok : List Char → Bool
  | [] => false
  | c :: cs => priceTokAt (c :: cs) || containsPriceTok cs

/-- `sanitizePrice` (aggregator.ts lines 70-82). -/
def sanitizePrice (value : Option String) : Option String :=
  match value with
  | none => none
  | some v =>
    if v = "" then none
    else
      let trimmed := jsTrim v
      if containsPriceTok trimmed.data && !trimmed.data.contains '<' then
        let cleaned : String := ⟨trimmed.data.filter (fun c => c ≠ '<' && c ≠ '>')⟩
        if cleaned.length ≤ 20 then some cleaned else none
      else none

/-- `/^[A-Z]{2}\d{2}[A-Z]{3}$/` — current UK format AB12CDE. -/
def ukPat1 : List Char → Bool
  | [a, b, c, d, e, f, g] =>
      a.isUpper && b.isUpper && c.isDigit && d.isDigit && e.isUpper && f.isUpper && g.isUpper
  | _ => false

/-- `/^[A-Z]\d{1,3}[A-Z]{3}$/` — prefix format A123BCD. -/
def ukPat2 : List Char → Bool
  | a :: rest =>
      a.isUpper &&
        (let ds := rest.takeWhile Char.isDigit
         let tail := rest.drop ds.length
         decide (1 ≤ ds.length) && decide (ds.length ≤ 3) &&
           (match tail with
            | [x, y, z] => x.isUpper && y.isUpper && z.isUpper
            | _ => false))
  | [] => false

/-- `/^[A-Z]{3}\d{1,3}[A-Z]$/` — suffix format ABC123D. -/
def ukPat3 : List Char → Bool
  | a :: b :: c :: rest =>
      a.isUpper && b.isUpper && c.isUpper &&
        (let ds := rest.takeWhile Char.isDigit
         let tail := rest.drop ds.length
         decide (1 ≤ ds.length) && decide (ds.length ≤ 3) &&
           (match tail with
            | [x] => x.isUpper
            | _ => false))
  | _ => false

/-- `/^[A-Z]{1,3}\d{1,4}$/` — dateless ABC1234. -/
def ukPat4 (l : List Char) : Bool :=
  let ls := l.takeWhile Char.isUpper
  let rest := l.drop ls.length
  decide (1 ≤ ls.length) && decide (ls.length ≤ 3) &&
    decide (1 ≤ rest.length) && decide (rest.length ≤ 4) && rest.all Char.isDigit

/-- `/^\d{1,4}[A-Z]{1,3}$/` — dateless 1234ABC. -/
def ukPat5 (l : List Char) : Bool :=
  let ds := l.takeWhile Char.isDigit
  let rest := l.drop ds.length
  decide (1 ≤ ds.length) && decide (ds.length ≤ 4) &&
    decide (1 ≤ rest.length) && decide (rest.length ≤ 3) && rest.all Char.isUpper

/-- `sanitizeUKRegistration` (aggregator.ts lines 87-112). -/
def sanitizeUKRegistration (value : Option String) : Option String :=
  match value with
  | none => none
  | some v =>
    if v = "" then none
    else
      let trimmed : String := stripWs (jsToUpperString (jsTrim v))
      let upper := trimmed.data.map Char.toUpper
      if upper = ['N', 'A'] || upper = ['N', '/', 'A'] then none
      else if ukPat1 trimmed.data || ukPat2 trimmed.data || ukPat3 trimmed.data ||
          ukPat4 trimmed.data || ukPat5 trimmed.data then
        if 4 < trimmed.length then
          some ⟨trimmed.data.take 4 ++ ' ' :: trimmed.data.drop 4⟩
        else some trimmed
      else none

/-! ## Engine-size parsing and scraped-record synthesis
(`buildVehicleFromScraped`, aggregator.ts lines 320-373) -/

/-- Match of `(\d+)\s*cc` (with `/i`) at the head of a list; returns the
captured digit run. -/
def ccCheckAt (l : List Char) : Option (List Char) :=
  let ds := l.takeWhile Char.isDigit
  if ds.isEmpty then none
  else
    match (l.drop ds.length).dropWhile jsWhitespace with
    | c1 :: c2 :: _ => if ciIs c1 'C' && ciIs c2 'C' then some ds else none
    | _ => none

/-- Leftmost match of `/(\d+)\s*cc/i` (unanchored search). -/
def ccSearch : List Char → Option (List Char)
  | [] => none
  | c :: cs =>
    match ccCheckAt (c :: cs) with
    | some ds => some ds
    | none => ccSearch cs

/-- The `[\d.]` character class of the liter pattern. -/
def isDigOrDot (c : Char) : Bool := c.isDigit || c = '.'

/-- Match of `([\d.]+)\s*l` (with `/i`) at the head of a list; returns the
captured run. -/
def literCheckAt (l : List Char) : Option (List Char) :=
  let ds := l.takeWhile isDigOrDot
  if ds.isEmpty then none
  else
    match (l.drop ds.length).dropWhile jsWhitespace with
    | c1 :: _ => if ciIs c1 'L' then some ds else none
    | _ => none

/-- Leftmost match of `/([\d.]+)\s*l/i` (unanchored search). -/
def literSearch : List Char → Option (List Char)
  | [] => none
  | c :: cs =>
    match literCheckAt (c :: cs) with
    | some ds => some ds
    | none => literSearch cs

/-- An exact decimal value `num / 10 ^ scale` — the result of parsing a
decimal literal; exact where a float64 would carry rounding error that is
far too small to change a `Math.round(· * 1000)` for the short tokens the
scraper produces. -/
structure DecVal where
  num : Nat
  scale : Nat
deriving DecidableEq

/-- JavaScript `parseFloat` on a string drawn from `[\d.]+`: parses the
longest valid decimal-literal prefix; `none` models NaN (no valid prefix,
e.g. `".."`). -/
def parseFloatDD (l : List Char) : Option DecVal :=
  match l with
  | [] => none
  | '.' :: rest =>
      let f := rest.takeWhile Char.isDigit
      if f.isEmpty then none else some ⟨digitsToNat f, f.length⟩
  | c :: _ =>
      if c.isDigit then
        let d := l.takeWhile Char.isDigit
        match l.drop d.length with
        | '.' :: rest =>
            let f := rest.takeWhile Char.isDigit
            some ⟨digitsToNat d * 10 ^ f.length + digitsToNat f, f.length⟩
        | _ => some ⟨digitsToNat d, 0⟩
      else none

/-- JavaScript `Math.round(v * 1000)` for the nonnegative decimal value
`v = num / 10 ^ scale`: half-values round up, so the result is
`⌊num * 1000 / 10 ^ scale + 1 / 2⌋`, computed exactly over `Nat`. -/
def mulRound1000 (v : DecVal) : Nat :=
  (2 * v.num * 1000 + 10 ^ v.scale) / (2 * 10 ^ v.scale)

/-- The engine-capacity computation of `buildVehicleFromScraped`
(aggregator.ts lines 324-337). `none` models NaN: a liter-pattern match
whose captured token is not a number makes `Math.round(parseFloat(t)*1000)`
NaN. -/
def parseEngineCapacity (engineSize : Option String) : Option Int :=
  match engineSize with
  | none => some 0
  | some s =>
    if s = "" then some 0
    else
      match ccSearch s.data with
      | some ds => some (digitsToNat ds : Int)
      | none =>
        match literSearch s.data with
        | some ds =>
          match parseFloatDD ds with
          | some v => some (mulRound1000 v : Int)
          | none => none
        | none => some 0

/-- The tax-status heuristic of `buildVehicleFromScraped`
(aggregator.ts lines 340-348). -/
def scrapedTaxStatus (taxStatus : Option String) : TaxStatus :=
  match taxStatus with
  | none => .untaxed
  | some s =>
    if s = "" then .untaxed
    else
      let lower := (jsToLowerString s).data
      if containsSeg "taxed".data lower && !containsSeg "untaxed".data lower &&
          !containsSeg "not taxed".data lower then .taxed
      else if containsSeg "sorn".data lower then .sorn
      else .untaxed

/-- The MOT-status heuristic of `buildVehicleFromScraped`
(aggregator.ts lines 351-359). -/
def scrapedMotStatus (motStatus : Option String) : MotStatus :=
  match motStatus with
  | none => .noDetailsHeldByDVLA
  | some s =>
    if s = "" then .noDetailsHeldByDVLA
    else
      let lower := (jsToLowerString s).data
      if containsSeg "valid".data lower ||
          (containsSeg "expires".data lower && !containsSeg "expired".data lower) then .valid
      else if containsSeg "expired".data lower || containsSeg "not valid".data lower then
        .notValid
      else .noDetailsHeldByDVLA

/-- `buildVehicleFromScraped` (aggregator.ts lines 320-373). -/
def buildVehicleFromScraped (registration : String) (scraped : ScrapedVehicleData) :
    VehicleData where
  registrationNumber := registration
  make := jsOrStr scraped.manufacturer "Unknown"
  model := scraped.model
  colour := jsOrStr scraped.colour "Unknown"
  fuelType := jsOrStr scraped.fuelType "Unknown"
  engineCapacity := parseEngineCapacity scraped.engineSize
  co2Emissions := none
  yearOfManufacture := scraped.yearOfManufacture.getD 0
  taxStatus := scrapedTaxStatus scraped.taxStatus
  taxDueDate := none
  motStatus := scrapedMotStatus scraped.motStatus
  motExpiryDate := none
  dateOfLastV5CIssued := none
  wheelplan := none
  monthOfFirstRegistration := none
  euroStatus := scraped.euroStatus
  markedForExport := none

/-! ## iomToVehicleData (iom-scraper module, exported mapping) -/

/-- First match of `/(\d{4})/`: the leftmost run of four consecutive digits. -/
def findFourDigits : List Char → Option (List Char)
  | [] => none
  | c :: cs =>
    let four := (c :: cs).take 4
    if four.length = 4 && four.all Char.isDigit then some four
    else findFourDigits cs

/-- The tax-status heuristic of `iomToVehicleData`. -/
def iomTaxStatus (taxStatus : Option String) : TaxStatus :=
  match taxStatus with
  | none => .untaxed
  | some s =>
    if s = "" then .untaxed
    else
      let lower := (jsToLowerString s).data
      if containsSeg "active".data lower || containsSeg "valid".data lower then .taxed
      else if containsSeg "sorn".data lower then .sorn
      else .untaxed

/-- The year-of-manufacture extraction of `iomToVehicleData`. -/
def iomYear (dateOfFirstRegistration : Option String) : Nat :=
  match dateOfFirstRegistration with
  | none => 0
  | some s =>
    if s = "" then 0
    else
      match findFourDigits s.data with
      | some ds => digitsToNat ds
      | none => 0

/-- `iomToVehicleData` (iom-scraper module): maps an Isle-of-Man record
into the standard `VehicleData` shape. -/
def iomToVehicleData (iom : IOMVehicleData) : VehicleData where
  registrationNumber := iom.registrationNumber
  make := jsOrStr iom.make "Unknown"
  model := jsOrOptStr iom.modelVariant iom.model
  colour := jsOrStr iom.colour "Unknown"
  fuelType := jsOrStr iom.fuelType "Unknown"
  engineCapacity := some (iom.cubicCapacity.getD 0 : Int)
  co2Emissions := iom.co2Emissions
  yearOfManufacture := iomYear iom.dateOfFirstRegistration
  taxStatus := iomTaxStatus iom.taxStatus
  taxDueDate := iom.taxExpiryDate
  motStatus := .noDetailsHeldByDVLA
  motExpiryDate := none
  dateOfLastV5CIssued := none
  wheelplan := iom.wheelPlan
  monthOfFirstRegistration := none
  euroStatus := none
  markedForExport := none

/-! ## The aggregator (aggregator.ts lines 120-317)

The async orchestration is embedded as explicit `Except`-passing over an
environment of fetcher behaviours: each fetcher is an arbitrary function
from the queried plate to `Except String (Option record)`, where
`.error f` models a rejected promise (a raised fault) and `.ok none`
models a `null` result.  The module-level configuration constants
(`USE_DVLA_API` from the DVLA key, the `ENABLE_SCRAPING` and
`ENABLE_IOM_LOOKUP` switches, and the MOT credentials checked inside
mot.ts) become boolean fields of the environment. -/

/-- A dispatch of one of the source fetchers, recorded at the point the
source pushes the corresponding promise / awaits the call. -/
inductive FetchCall
  | getDVLAVehicle (reg : String)
  | getMockVehicleData (reg : String)
  | getMOTHistory (reg : String)
  | getMockMOTHistory (reg : String)
  | scrapeTotalCarCheck (reg : String)
  | scrapeIOMVehicle (reg : String)
deriving DecidableEq

/-- The aggregator's environment: configuration flags and fetcher
behaviours.  `motApiConfigured` mirrors the MOT credentials consulted by
mot.ts (`MOT_CLIENT_ID` etc.); the aggregator itself never reads them. -/
structure Env where
  useDvlaApi : Bool
  motApiConfigured : Bool
  enableScraping : Bool
  enableIomLookup : Bool
  getDVLAVehicle : String → Except String (Option VehicleData)
  getMockVehicleData : String → Except String (Option VehicleData)
  getMockMOTHistory : String → Except String (Option MOTHistory)
  scrapeTotalCarCheck : String → Except String (Option ScrapedVehicleData)
  scrapeIOMVehicle : String → Except String (Option IOMVehicleData)

/-- Error message of the invalid-input guard (aggregator.ts line 126). -/
def invalidMsg : String := "Invalid registration number"

/-- Error message of the UK not-found outcome (aggregator.ts line 300). -/
def notFoundMsg : String :=
  "Vehicle not found. Please check the registration number and try again."

/-- Generic UK catch-all error message (aggregator.ts line 314). -/
def ukErrorMsg : String :=
  "An error occurred while fetching vehicle data. Please try again."

/-- Generic Isle-of-Man catch-all error message (aggregator.ts line 235). -/
def iomErrorMsg : String :=
  "An error occurred while fetching Isle of Man vehicle data. Please try again."

/-- Isle-of-Man unavailability message (aggregator.ts lines 155-157). -/
def iomUnavailableMsg : String :=
  "Isle of Man lookup failed. The gov.im service may be unavailable. " ++
    "Please try again later."

/-- The all-absent `VehicleInfo` with only a registration and an error,
matching the `{registration, error}` return literals of the source. -/
def errorInfo (registration msg : String) : VehicleInfo where
  registration := registration
  vehicle := none
  motHistory := none
  extras := none
  insurance := none
  ukVehicle := none
  isManx := none
  error := some msg

/-- `s.substring(0, 200)` on the debug HTML preview. -/
def take200 (s : String) : String := ⟨s.data.take 200⟩

/-- The diagnostic message assembled when an Isle-of-Man record lacks a
`make` (aggregator.ts lines 161-179). -/
def iomNoDataMsg (dbg : Option IOMDebugInfo) : String :=
  let base := "Could not extract vehicle data from gov.im."
  match dbg with
  | none => base
  | some d =>
    let m1 := match d.error with
      | some e => if e = "" then base else base ++ " Error: " ++ e
      | none => base
    let m2 := match d.url with
      | some u => if u = "" then m1 else m1 ++ " URL: " ++ u
      | none => m1
    match d.htmlPreview with
    | some h => if h = "" then m2 else m2 ++ " Page preview: " ++ take200 h
    | none => m2

/-- The ten-field `extras` literal built from scraped UK data
(aggregator.ts lines 279-291).  The four Isle-of-Man-specific keys are not
present in this object literal. -/
def ukExtrasOf (sd : ScrapedVehicleData) : ScrapedExtras where
  bhp := sd.bhp
  topSpeed := sanitizeScrapedString sd.topSpeed 30
  zeroToSixty := sanitizeScrapedString sd.zeroToSixty 30
  insuranceGroup := sanitizeInsuranceGroup sd.insuranceGroup
  ulezCompliant := sd.ulezCompliant
  cazCompliant := sd.cazCompliant
  previousPrice := sanitizePrice sd.previousPrice
  previousMileage := sanitizeScrapedString sd.previousMileage 30
  bodyStyle := sanitizeScrapedString sd.bodyStyle 50
  registrationLocation := sanitizeScrapedString sd.registrationLocation 50
  previousUKRegistration := none
  dateOfFirstRegistrationIOM := none
  modelVariant := none
  category := none
  sources := some (match sd.scrapedFrom with
    | some f => if f = "" then [] else [f]
    | none => [])

/-- The pure result assembly of the UK branch after all fetches resolved
(aggregator.ts lines 265-309). -/
def assembleUK (normalized : String) (vehicle0 : Option VehicleData)
    (motHistory : Option MOTHistory) (scrapedData : Option ScrapedVehicleData) :
    VehicleInfo :=
  let vehicle : Option VehicleData :=
    match vehicle0 with
    | some v => some v
    | none =>
      match scrapedData with
      | some sd =>
        if jsTruthyStr sd.manufacturer then some (buildVehicleFromScraped normalized sd)
        else none
      | none => none
  let extras : Option ScrapedExtras := scrapedData.map ukExtrasOf
  let hasAnyData := vehicle.isSome || motHistory.isSome || scrapedData.isSome
  if hasAnyData then
    { registration := normalized
      vehicle := vehicle
      motHistory := motHistory
      extras := extras
      insurance := none
      ukVehicle := none
      isManx := none
      error := none }
  else errorInfo normalized notFoundMsg

/-- The body of `getUKVehicleInfo`'s `try` block (aggregator.ts lines
244-309): dispatch the vehicle fetcher (DVLA if configured, else mock),
the mock MOT-history fetcher, and — when scraping is enabled — the
third-party scraper, then assemble. A `Promise.all` rejection surfaces as
`.error`. -/
def getUKVehicleInfoBody (env : Env) (normalized : String) :
    Except String VehicleInfo :=
  match (if env.useDvlaApi then env.getDVLAVehicle normalized
         else env.getMockVehicleData normalized) with
  | .error e => .error e
  | .ok vehicle0 =>
    match env.getMockMOTHistory normalized with
    | .error e => .error e
    | .ok motHistory =>
      match (if env.enableScraping then env.scrapeTotalCarCheck normalized
             else .ok none) with
      | .error e => .error e
      | .ok scrapedData => .ok (assembleUK normalized vehicle0 motHistory scrapedData)

/-- `getUKVehicleInfo` (aggregator.ts lines 243-317): the body wrapped in
the top-level `try`/`catch` producing the generic error result. -/
def getUKVehicleInfo (env : Env) (normalized : String) : VehicleInfo :=
  match getUKVehicleInfoBody env normalized with
  | .ok info => info
  | .error _ => errorInfo normalized ukErrorMsg

/-- The fetchers dispatched by one UK-branch lookup, in `promises.push`
order (aggregator.ts lines 246-261).  Dispatch happens before any await,
so the list depends only on the configuration flags. -/
def getUKVehicleCalls (env : Env) (normalized : String) : List FetchCall :=
  (if env.useDvlaApi then [.getDVLAVehicle normalized]
   else [.getMockVehicleData normalized]) ++
  [.getMockMOTHistory normalized] ++
  (if env.enableScraping then [.scrapeTotalCarCheck normalized] else [])

/-- The `sources`-merging object spread of the Isle-of-Man branch
(aggregator.ts lines 213-220):
`{...ukExtras, ...extras, sources: ['gov.im', ...(ukExtras?.sources || [])]}`.
The spread is resolved against the two literals' key sets: the IoM
`extras` literal carries exactly the four IoM-specific keys plus
`sources` (its values, even when `undefined`, overwrite the spread of
`ukExtras`), while the UK literal carries exactly the remaining ten keys
plus `sources`. -/
def mergeExtras (ukExtras : Option ScrapedExtras) (iomE : ScrapedExtras) :
    ScrapedExtras where
  bhp := ukExtras.bind ScrapedExtras.bhp
  topSpeed := ukExtras.bind ScrapedExtras.topSpeed
  zeroToSixty := ukExtras.bind ScrapedExtras.zeroToSixty
  insuranceGroup := ukExtras.bind ScrapedExtras.insuranceGroup
  ulezCompliant := ukExtras.bind ScrapedExtras.ulezCompliant
  cazCompliant := ukExtras.bind ScrapedExtras.cazCompliant
  previousPrice := ukExtras.bind ScrapedExtras.previousPrice
  previousMileage := ukExtras.bind ScrapedExtras.previousMileage
  bodyStyle := ukExtras.bind ScrapedExtras.bodyStyle
  registrationLocation := ukExtras.bind ScrapedExtras.registrationLocation
  previousUKRegistration := iomE.previousUKRegistration
  dateOfFirstRegistrationIOM := iomE.dateOfFirstRegistrationIOM
  modelVariant := iomE.modelVariant
  category := iomE.category
  sources := some ("gov.im" :: ((ukExtras.bind ScrapedExtras.sources).getD []))

/-- The IoM-specific `extras` literal (aggregator.ts lines 186-192). -/
def iomExtrasOf (iomData : IOMVehicleData) : ScrapedExtras where
  bhp := none
  topSpeed := none
  zeroToSixty := none
  insuranceGroup := none
  ulezCompliant := none
  cazCompliant := none
  previousPrice := none
  previousMileage := none
  bodyStyle := none
  registrationLocation := none
  previousUKRegistration := sanitizeUKRegistration iomData.previousUKRegistration
  dateOfFirstRegistrationIOM := sanitizeScrapedString iomData.dateOfFirstRegistrationIOM 100
  modelVariant := sanitizeScrapedString iomData.modelVariant 100
  category := sanitizeScrapedString iomData.category 20
  sources := some ["gov.im"]

/-- The body of `getIOMVehicleInfo`'s `try` block (aggregator.ts lines
148-229).  The recursive `getUKVehicleInfo` call never rejects (it has
its own `catch`), so it appears as the total function. -/
def getIOMVehicleInfoBody (env : Env) (normalized originalReg : String) :
    Except String VehicleInfo :=
  match env.scrapeIOMVehicle originalReg with
  | .error e => .error e
  | .ok none =>
    .ok { errorInfo normalized iomUnavailableMsg with isManx := some true }
  | .ok (some iomData) =>
    if !jsTruthyStr iomData.make then
      .ok { errorInfo normalized (iomNoDataMsg iomData.debug) with isManx := some true }
    else
      let vehicle := iomToVehicleData iomData
      let extras := iomExtrasOf iomData
      let ukInfo : Option VehicleInfo :=
        if jsTruthyStr iomData.previousUKRegistration then
          some (getUKVehicleInfo env (stripWs (iomData.previousUKRegistration.getD "")))
        else none
      .ok { registration := normalized
            vehicle := some vehicle
            motHistory := ukInfo.bind VehicleInfo.motHistory
            extras := some (mergeExtras (ukInfo.bind VehicleInfo.extras) extras)
            insurance := none
            ukVehicle := ukInfo.bind VehicleInfo.vehicle
            isManx := some true
            error := none }

/-- `getIOMVehicleInfo` (aggregator.ts lines 144-238): the body wrapped in
the top-level `try`/`catch` producing the generic error result. -/
def getIOMVehicleInfo (env : Env) (normalized originalReg : String) : VehicleInfo :=
  match getIOMVehicleInfoBody env normalized originalReg with
  | .ok info => info
  | .error _ => { errorInfo normalized iomErrorMsg with isManx := some true }

/-- The fetchers dispatched by one Isle-of-Man-branch lookup: the gov.im
scrape always, then — only when the scrape succeeded with a record whose
`make` is truthy and whose `previousUKRegistration` is truthy
(aggregator.ts line 199) — the recursive UK-branch dispatches. -/
def getIOMVehicleCalls (env : Env) (originalReg : String) : List FetchCall :=
  FetchCall.scrapeIOMVehicle originalReg ::
    (match env.scrapeIOMVehicle originalReg with
     | .ok (some iomData) =>
       if jsTruthyStr iomData.make && jsTruthyStr iomData.previousUKRegistration then
         getUKVehicleCalls env (stripWs (iomData.previousUKRegistration.getD ""))
       else []
     | _ => [])

/-- `getVehicleInfo` (aggregator.ts lines 120-139) — the single entry
point.  The guard is `!normalized || normalized.length < 2`, written as the
corresponding decidable disjunction on the canonical form. -/
def getVehicleInfo (env : Env) (registration : String) : VehicleInfo :=
  if normalizeReg registration = "" ∨ (normalizeReg registration).length < 2 then
    errorInfo (normalizeReg registration) invalidMsg
  else if isManxPlate registration && env.enableIomLookup then
    getIOMVehicleInfo env (normalizeReg registration) registration
  else getUKVehicleInfo env (normalizeReg registration)

/-- The fetchers dispatched by one `getVehicleInfo` request. -/
def getVehicleInfoCalls (env : Env) (registration : String) : List FetchCall :=
  if normalizeReg registration = "" ∨ (normalizeReg registration).length < 2 then []
  else if isManxPlate registration && env.enableIomLookup then
    getIOMVehicleCalls env registration
  else getUKVehicleCalls env (normalizeReg registration)

/-! ## Test fixtures: concrete environments and records -/

/-- A baseline environment: nothing configured, scraping off, IoM lookups
on (both switches are `true` in the source; lowering the scraping switch
lets claims quantify over it), every fetcher resolving to `null`. -/
def env0 : Env where
  useDvlaApi := false
  motApiConfigured := false
  enableScraping := false
  enableIomLookup := true
  getDVLAVehicle := fun _ => .ok none
  getMockVehicleData := fun _ => .ok none
  getMockMOTHistory := fun _ => .ok none
  scrapeTotalCarCheck := fun _ => .ok none
  scrapeIOMVehicle := fun _ => .ok none

/-- A gov.im record whose previous-UK-registration field is the literal
`"N/A"` — non-empty (truthy) but rejected by `sanitizeUKRegistration`. -/
def iomPrevNA : IOMVehicleData where
  registrationNumber := "MAN123"
  make := some "BMW"
  model := some "320d"
  modelVariant := none
  category := none
  colour := some "Blue"
  cubicCapacity := some 1995
  fuelType := some "Diesel"
  co2Emissions := none
  dateOfFirstRegistration := some "01/03/2016"
  previousUKRegistration := some "N/A"
  dateOfFirstRegistrationIOM := none
  wheelPlan := none
  taxStatus := some "Active"
  taxExpiryDate := none
  scrapedAt := none
  debug := none

/-- An environment whose gov.im scrape returns `iomPrevNA`. -/
def envPrevNA : Env :=
  { env0 with scrapeIOMVehicle := fun _ => .ok (some iomPrevNA) }

/-- A minimal MOT history fixture. -/
def motFixture : MOTHistory where
  registration := "AB12CDE"
  make := "VOLKSWAGEN"
  model := "GOLF"
  firstUsedDate := none
  fuelType := none
  primaryColour := none
  motTests := []

/-- An environment where only the MOT-history fetcher finds data. -/
def envMotOnly : Env :=
  { env0 with getMockMOTHistory := fun _ => .ok (some motFixture) }

/-- An environment whose MOT fetcher raises (a rejected promise). -/
def envMotThrows : Env :=
  { env0 with getMockMOTHistory := fun _ => .error "network failure" }

/-- An environment with the MOT API credentials configured (mot.ts would
use them) — the aggregator still dispatches only the mock MOT fetcher. -/
def envMotConfigured : Env :=
  { env0 with motApiConfigured := true }

/-- A scraped record whose engine-size text is `"..L"`: the liter pattern
matches but the captured token parses to NaN. -/
def scrapedDotsL : ScrapedVehicleData where
  manufacturer := some "SKODA"
  model := none
  modelDetail := none
  colour := none
  bodyStyle := none
  fuelType := none
  engineSize := some "..L"
  euroStatus := none
  yearOfManufacture := none
  bhp := none
  topSpeed := none
  zeroToSixty := none
  insuranceGroup := none
  motStatus := none
  taxStatus := none
  ulezCompliant := none
  cazCompliant := none
  previousPrice := none
  previousMileage := none
  registrationLocation := none
  scrapedFrom := some "totalcarcheck.co.uk"
  scrapedAt := none

/-! ## Helper lemmas -/

/-- The UK result assembly stamps the queried plate into `registration`. -/
theorem assembleUK_registration (n : String) (v0 : Option VehicleData)
    (mh : Option MOTHistory) (sd : Option ScrapedVehicleData) :
    (assembleUK n v0 mh sd).registration = n := by
  cases v0 <;> cases mh <;> cases sd <;> simp [assembleUK, errorInfo]

/-- Every path of the UK branch stamps the queried normalized plate into
the result's `registration` field. -/
theorem getUKVehicleInfo_registration (env : Env) (n : String) :
    (getUKVehicleInfo env n).registration = n := by
  unfold getUKVehicleInfo getUKVehicleInfoBody
  cases h1 : (if env.useDvlaApi then env.getDVLAVehicle n else env.getMockVehicleData n) with
  | error e => rfl
  | ok v0 =>
    cases h2 : env.getMockMOTHistory n with
    | error e => rfl
    | ok mh =>
      cases h3 : (if env.enableScraping then env.scrapeTotalCarCheck n
                  else Except.ok none) with
      | error e => rfl
      | ok sd => exact assembleUK_registration n v0 mh sd

/-- Every path of the Isle-of-Man branch stamps the normalized plate into
the result's `registration` field. -/
theorem getIOMVehicleInfo_registration (env : Env) (n o : String) :
    (getIOMVehicleInfo env n o).registration = n := by
  unfold getIOMVehicleInfo getIOMVehicleInfoBody
  cases h1 : env.scrapeIOMVehicle o with
  | error e => rfl
  | ok od =>
    cases od with
    | none => rfl
    | some d => cases hm : jsTruthyStr d.make <;> simp [hm, errorInfo]

/-! ## Claims -/

/-- Claim C1. The classifier is a pure total function into {UK, ISLE_OF_MAN}
and Lean's `isManxPlate` settles every example deterministically; but the
example `"1-MN-00"` classifies as UK, not ISLE_OF_MAN as the claim (and the
code's own comments, which list `1-MN-00` as a Manx example the modern
pattern should match) require: `isManxPlate`'s normalization replaces every
hyphen with a space before the patterns run, so the hyphen-requiring
pattern `/^\d+-MN-\d+$/i` can never match either tested form.  This theorem
evaluates the code at the claim's five examples, exhibiting the failure. -/
theorem C1_jurisdiction_classification :
    isManxPlate "PMN 147 E" = true ∧
    isManxPlate "MAN 123" = true ∧
    isManxPlate "AB12 CDE" = false ∧
    isManxPlate "BD19XYZ" = false ∧
    isManxPlate "1-MN-00" = false := by decide

/-- Claim C5: for every input whose uppercased whitespace-stripped form has
fewer than 2 characters, `getVehicleInfo` returns the invalid-input error
result and dispatches no fetcher — for any configuration and any fetcher
behaviour. -/
theorem C5_invalid_input (env : Env) (reg : String)
    (h : (normalizeReg reg).length < 2) :
    (getVehicleInfo env reg).error = some invalidMsg ∧
      getVehicleInfoCalls env reg = [] := by
  constructor
  · unfold getVehicleInfo
    rw [if_pos (Or.inr h)]
    rfl
  · unfold getVehicleInfoCalls
    rw [if_pos (Or.inr h)]

/-- Claim C5 witness: the single-letter input `"A"` concretely triggers the
invalid-input result with an empty dispatch list. -/
theorem C5_invalid_input_witness :
    (getVehicleInfo env0 "A").error = some invalidMsg ∧
      getVehicleInfoCalls env0 "A" = [] :=
  C5_invalid_input env0 "A" (by decide)

/-- Claim C9: a raised fault never escapes `getVehicleInfo`.  In the
embedding both branch functions are total by construction; this theorem
states the `catch` semantics: whenever a branch body rejects — in
particular whenever a dispatched fetcher raises — the branch returns the
terminal result whose `error` is the branch's generic message. -/
theorem C9_exceptions_converted (env : Env) (n o : String) :
    ((∃ e, getUKVehicleInfoBody env n = .error e) →
      getUKVehicleInfo env n = errorInfo n ukErrorMsg) ∧
    ((∃ e, getIOMVehicleInfoBody env n o = .error e) →
      getIOMVehicleInfo env n o = { errorInfo n iomErrorMsg with isManx := some true }) ∧
    (∀ f v0, (if env.useDvlaApi then env.getDVLAVehicle n
              else env.getMockVehicleData n) = .ok v0 →
      env.getMockMOTHistory n = .error f →
      (getUKVehicleInfo env n).error = some ukErrorMsg) ∧
    (∀ f, env.scrapeIOMVehicle o = .error f →
      (getIOMVehicleInfo env n o).error = some iomErrorMsg) := by
  refine ⟨?_, ?_, ?_, ?_⟩
  · rintro ⟨e, he⟩
    unfold getUKVehicleInfo
    rw [he]
  · rintro ⟨e, he⟩
    unfold getIOMVehicleInfo
    rw [he]
  · intro f v0 hv hm
    unfold getUKVehicleInfo getUKVehicleInfoBody
    rw [hv, hm]
    rfl
  · intro f hf
    unfold getIOMVehicleInfo getIOMVehicleInfoBody
    rw [hf]
    rfl

/-- Claim C9 witness: with a MOT fetcher that rejects, the UK lookup of
`"AB12CDE"` concretely yields the generic error result. -/
theorem C9_exceptions_converted_witness :
    (getUKVehicleInfo envMotThrows "AB12CDE").error = some ukErrorMsg :=
  (C9_exceptions_converted envMotThrows "AB12CDE" "X").2.2.1
    "network failure" none rfl rfl

/-- Claim C10: in every branch — invalid input, Isle-of-Man, UK, success
and error alike — the result's `registration` field is the uppercased,
whitespace-stripped canonical form of the raw input. -/
theorem C10_registration_canonical (env : Env) (reg : String) :
    (getVehicleInfo env reg).registration = normalizeReg reg := by
  unfold getVehicleInfo
  by_cases h1 : normalizeReg reg = "" ∨ (normalizeReg reg).length < 2
  · rw [if_pos h1]
    rfl
  · rw [if_neg h1]
    cases hm : (isManxPlate reg && env.enableIomLookup) with
    | true =>
      rw [if_pos rfl]
      exact getIOMVehicleInfo_registration env (normalizeReg reg) reg
    | false =>
      rw [if_neg (by simp)]
      exact getUKVehicleInfo_registration env (normalizeReg reg)

/-- Claim C2 counterexample: a gov.im record whose previous-UK-registration
field is `"N/A"` — rejected by `sanitizeUKRegistration` — still triggers
the recursive UK lookup (the UK branch's fetchers are dispatched for it),
because the source gates the lookup on the raw field's truthiness, not on
the sanitizer. -/
theorem C2_counterexample :
    sanitizeUKRegistration iomPrevNA.previousUKRegistration = none ∧
    FetchCall.getMockMOTHistory "N/A" ∈ getVehicleInfoCalls envPrevNA "MAN 123" := by
  decide

/-- Claim C2, amended: when the gov.im scrape succeeds with a record whose
`make` is truthy, the recursive UK lookup is performed if and only if the
record's previous-UK-registration field is present and non-empty; the
sanitizer governs only the `previousUKRegistration` value stored in the
ExtrasRecord. -/
theorem C2_uk_lookup_trigger (env : Env) (o : String) (d : IOMVehicleData)
    (hscrape : env.scrapeIOMVehicle o = .ok (some d))
    (hmake : jsTruthyStr d.make = true) :
    (∃ r, FetchCall.getMockMOTHistory r ∈ getIOMVehicleCalls env o) ↔
      jsTruthyStr d.previousUKRegistration = true := by
  unfold getIOMVehicleCalls
  rw [hscrape]
  dsimp only
  rw [hmake]
  cases hp : jsTruthyStr d.previousUKRegistration with
  | false => simp
  | true =>
    simp only [Bool.true_and, if_true, iff_true]
    refine ⟨stripWs (d.previousUKRegistration.getD ""), ?_⟩
    simp [getUKVehicleCalls]

/-- Claim C2 witness: concretely, with the gov.im record `iomPrevNA` the
trigger equivalence instantiates (its previous-UK field `"N/A"` is truthy,
so a UK dispatch exists). -/
theorem C2_uk_lookup_trigger_witness :
    (∃ r, FetchCall.getMockMOTHistory r ∈ getIOMVehicleCalls envPrevNA "MAN 123") ↔
      jsTruthyStr iomPrevNA.previousUKRegistration = true :=
  C2_uk_lookup_trigger envPrevNA "MAN 123" iomPrevNA rfl rfl

/-- Claim C3: in the UK branch, when every dispatched fetch resolves, the
"not found" error is returned exactly when all three of vehicle record,
inspection history and raw scraped record are absent; one non-empty member
suffices for a success with no error. -/
theorem C3_not_found_gate (env : Env) (n : String) (v : Option VehicleData)
    (m : Option MOTHistory) (s : Option ScrapedVehicleData)
    (hv : (if env.useDvlaApi then env.getDVLAVehicle n
           else env.getMockVehicleData n) = .ok v)
    (hm : env.getMockMOTHistory n = .ok m)
    (hs : (if env.enableScraping then env.scrapeTotalCarCheck n
           else .ok none) = .ok s) :
    ((getUKVehicleInfo env n).error = some notFoundMsg ↔
      v = none ∧ m = none ∧ s = none) ∧
    ((v.isSome ∨ m.isSome ∨ s.isSome) → (getUKVehicleInfo env n).error = none) := by
  have hbody : getUKVehicleInfo env n = assembleUK n v m s := by
    unfold getUKVehicleInfo getUKVehicleInfoBody
    rw [hv, hm, hs]
  rw [hbody]
  cases v <;> cases m <;> cases s <;> simp [assembleUK, errorInfo]

/-- Claim C3 witness: with only the MOT-history fetcher returning data, the
gate concretely reports "found" with no error. -/
theorem C3_not_found_gate_witness :
    (((getUKVehicleInfo envMotOnly "AB12CDE").error = some notFoundMsg ↔
        none = (none : Option VehicleData) ∧ some motFixture = none ∧
          none = (none : Option ScrapedVehicleData)) ∧
     (((none : Option VehicleData)).isSome ∨ (some motFixture).isSome ∨
        ((none : Option ScrapedVehicleData)).isSome →
       (getUKVehicleInfo envMotOnly "AB12CDE").error = none)) :=
  C3_not_found_gate envMotOnly "AB12CDE" none (some motFixture) none rfl rfl rfl

/-- Claim C4 counterexample: with the MOT API credentials configured, the
aggregator still dispatches the mock inspection-history fetcher and never
the official one — the dispatch list for a UK lookup contains
`getMockMOTHistory`, not `getMOTHistory`. -/
theorem C4_counterexample :
    envMotConfigured.motApiConfigured = true ∧
    getUKVehicleCalls envMotConfigured "AB12CDE" =
      [FetchCall.getMockVehicleData "AB12CDE", FetchCall.getMockMOTHistory "AB12CDE"] ∧
    FetchCall.getMOTHistory "AB12CDE" ∉ getUKVehicleCalls envMotConfigured "AB12CDE" := by
  decide

/-- Claim C4, amended: the UK branch dispatches exactly one of the official
registry fetcher (iff the DVLA key is configured) and the mock fixture
fetcher (iff it is not — so never as a substitute for a configured-but-
failing official source), always the mock inspection-history fetcher
(the official inspection-history client is never dispatched by the
aggregator), and the third-party scraper iff scraping is enabled. -/
theorem C4_dispatch (env : Env) (n : String) :
    (FetchCall.getDVLAVehicle n ∈ getUKVehicleCalls env n ↔ env.useDvlaApi = true) ∧
    (FetchCall.getMockVehicleData n ∈ getUKVehicleCalls env n ↔ env.useDvlaApi = false) ∧
    FetchCall.getMockMOTHistory n ∈ getUKVehicleCalls env n ∧
    (∀ r, FetchCall.getMOTHistory r ∉ getUKVehicleCalls env n) ∧
    (FetchCall.scrapeTotalCarCheck n ∈ getUKVehicleCalls env n ↔
      env.enableScraping = true) := by
  unfold getUKVehicleCalls
  cases hd : env.useDvlaApi <;> cases hs : env.enableScraping <;> simp

/-- The ExtrasRecord contributed by the UK cross-reference stage of the
Isle-of-Man branch: the UK branch's extras when the previous-UK field is
truthy, absent otherwise. -/
def iomCrossRefExtras (env : Env) (d : IOMVehicleData) : Option ScrapedExtras :=
  if jsTruthyStr d.previousUKRegistration then
    (getUKVehicleInfo env (stripWs (d.previousUKRegistration.getD ""))).extras
  else none

/-- Claim C6: in the Isle-of-Man success path the merged ExtrasRecord
takes every Isle-of-Man-specific field from the (sanitized) gov.im record
— Isle-of-Man wins on those keys regardless of the UK cross-reference —
while each of the remaining fields is filled from the UK cross-reference
branch's extras, and the `sources` list is `"gov.im"` followed by the UK
sources in their original order. -/
theorem C6_extras_merge (env : Env) (n o : String) (d : IOMVehicleData)
    (hscrape : env.scrapeIOMVehicle o = .ok (some d))
    (hmake : jsTruthyStr d.make = true) :
    ∃ ex, (getIOMVehicleInfo env n o).extras = some ex ∧
      ex.previousUKRegistration = sanitizeUKRegistration d.previousUKRegistration ∧
      ex.dateOfFirstRegistrationIOM =
        sanitizeScrapedString d.dateOfFirstRegistrationIOM 100 ∧
      ex.modelVariant = sanitizeScrapedString d.modelVariant 100 ∧
      ex.category = sanitizeScrapedString d.category 20 ∧
      ex.bhp = (iomCrossRefExtras env d).bind ScrapedExtras.bhp ∧
      ex.topSpeed = (iomCrossRefExtras env d).bind ScrapedExtras.topSpeed ∧
      ex.zeroToSixty = (iomCrossRefExtras env d).bind ScrapedExtras.zeroToSixty ∧
      ex.insuranceGroup = (iomCrossRefExtras env d).bind ScrapedExtras.insuranceGroup ∧
      ex.ulezCompliant = (iomCrossRefExtras env d).bind ScrapedExtras.ulezCompliant ∧
      ex.cazCompliant = (iomCrossRefExtras env d).bind ScrapedExtras.cazCompliant ∧
      ex.previousPrice = (iomCrossRefExtras env d).bind ScrapedExtras.previousPrice ∧
      ex.previousMileage = (iomCrossRefExtras env d).bind ScrapedExtras.previousMileage ∧
      ex.bodyStyle = (iomCrossRefExtras env d).bind ScrapedExtras.bodyStyle ∧
      ex.registrationLocation =
        (iomCrossRefExtras env d).bind ScrapedExtras.registrationLocation ∧
      ex.sources =
        some ("gov.im" :: ((iomCrossRefExtras env d).bind ScrapedExtras.sources).getD []) := by
  unfold getIOMVehicleInfo getIOMVehicleInfoBody
  rw [hscrape]
  dsimp only
  rw [hmake]
  simp only [Bool.not_true, Bool.false_eq_true, if_false]
  refine ⟨_, rfl, ?_⟩
  cases hp : jsTruthyStr d.previousUKRegistration <;>
    simp [mergeExtras, iomExtrasOf, iomCrossRefExtras, hp]

/-- Claim C6 witness: the merge properties instantiated at the concrete
environment `envPrevNA` and record `iomPrevNA`. -/
theorem C6_extras_merge_witness :
    ∃ ex, (getIOMVehicleInfo envPrevNA "MAN123" "MAN 123").extras = some ex ∧
      ex.previousUKRegistration = sanitizeUKRegistration iomPrevNA.previousUKRegistration ∧
      ex.dateOfFirstRegistrationIOM =
        sanitizeScrapedString iomPrevNA.dateOfFirstRegistrationIOM 100 ∧
      ex.modelVariant = sanitizeScrapedString iomPrevNA.modelVariant 100 ∧
      ex.category = sanitizeScrapedString iomPrevNA.category 20 ∧
      ex.bhp = (iomCrossRefExtras envPrevNA iomPrevNA).bind ScrapedExtras.bhp ∧
      ex.topSpeed = (iomCrossRefExtras envPrevNA iomPrevNA).bind ScrapedExtras.topSpeed ∧
      ex.zeroToSixty = (iomCrossRefExtras envPrevNA iomPrevNA).bind ScrapedExtras.zeroToSixty ∧
      ex.insuranceGroup =
        (iomCrossRefExtras envPrevNA iomPrevNA).bind ScrapedExtras.insuranceGroup ∧
      ex.ulezCompliant =
        (iomCrossRefExtras envPrevNA iomPrevNA).bind ScrapedExtras.ulezCompliant ∧
      ex.cazCompliant =
        (iomCrossRefExtras envPrevNA iomPrevNA).bind ScrapedExtras.cazCompliant ∧
      ex.previousPrice =
        (iomCrossRefExtras envPrevNA iomPrevNA).bind ScrapedExtras.previousPrice ∧
      ex.previousMileage =
        (iomCrossRefExtras envPrevNA iomPrevNA).bind ScrapedExtras.previousMileage ∧
      ex.bodyStyle = (iomCrossRefExtras envPrevNA iomPrevNA).bind ScrapedExtras.bodyStyle ∧
      ex.registrationLocation =
        (iomCrossRefExtras envPrevNA iomPrevNA).bind ScrapedExtras.registrationLocation ∧
      ex.sources =
        some ("gov.im" ::
          ((iomCrossRefExtras envPrevNA iomPrevNA).bind ScrapedExtras.sources).getD []) :=
  C6_extras_merge envPrevNA "MAN123" "MAN 123" iomPrevNA rfl rfl

/-- Characterization of a successful `sanitizeScrapedString`: it returns
`some w` exactly when `w` is the trimmed value and every rejection check
passes. -/
theorem sanitizeScrapedString_eq_some_iff (v : String) (m : Nat) (w : String) :
    sanitizeScrapedString (some v) m = some w ↔
      w = jsTrim v ∧ v ≠ "" ∧ jsTrim v ≠ "" ∧
      containsHtmlTag (jsTrim v).data = false ∧
      containsAngleOrQuote (jsTrim v).data = false ∧
      (jsTrim v).length ≤ m ∧
      garbageTest (jsTrim v).data = false := by
  unfold sanitizeScrapedString
  dsimp only
  split_ifs with h1 h2 h3 h4 h5
  · simp [h1]
  · simp [h1, h2]
  · rw [Bool.or_eq_true] at h3
    constructor
    · intro hcontra
      exact hcontra.elim
    · rintro ⟨-, -, -, hA, hB, -, -⟩
      rcases h3 with h3 | h3
      · rw [hA] at h3
        exact Bool.noConfusion h3
      · rw [hB] at h3
        exact Bool.noConfusion h3
  · constructor
    · intro hcontra
      exact hcontra.elim
    · rintro ⟨-, -, -, -, -, hlen, -⟩
      omega
  · constructor
    · intro hcontra
      exact hcontra.elim
    · rintro ⟨-, -, -, -, -, -, hg⟩
      rw [hg] at h5
      exact Bool.noConfusion h5
  · have hor : (containsHtmlTag (jsTrim v).data ||
        containsAngleOrQuote (jsTrim v).data) = false := by
      cases hx : (containsHtmlTag (jsTrim v).data ||
          containsAngleOrQuote (jsTrim v).data) with
      | false => rfl
      | true => exact absurd hx h3
    have hg : garbageTest (jsTrim v).data = false := by
      cases hx : garbageTest (jsTrim v).data with
      | false => rfl
      | true => exact absurd hx h5
    constructor
    · intro hsome
      have hw : jsTrim v = w := by
        injection hsome
      have hAB := Bool.or_eq_false_iff.mp hor
      exact ⟨hw.symm, h1, h2, hAB.1, hAB.2, by omega, hg⟩
    · rintro ⟨hw, -, -, -, -, -, -⟩
      rw [hw]

/-- Claim C7: `sanitizeScrapedString` rejects whitespace-only values,
values whose trimmed form contains `<`, `>` or a double quote, trimmed
values longer than `maxLength`, and deny-listed placeholder phrases
(case-insensitively); any accepted value is returned trimmed.  The claim's
concrete examples for it and for `sanitizeInsuranceGroup` all evaluate as
stated, together with one example per deny-list phrase. -/
theorem C7_sanitizers :
    (∀ v m, jsTrim v = "" → sanitizeScrapedString (some v) m = none) ∧
    (∀ v m, containsAngleOrQuote (jsTrim v).data = true →
       sanitizeScrapedString (some v) m = none) ∧
    (∀ v m, m < (jsTrim v).length → sanitizeScrapedString (some v) m = none) ∧
    (∀ v m, garbageTest (jsTrim v).data = true →
       sanitizeScrapedString (some v) m = none) ∧
    (∀ v m w, sanitizeScrapedString (some v) m = some w → w = jsTrim v) ∧
    (sanitizeScrapedString (some "  VOLKSWAGEN  ") 100 = some "VOLKSWAGEN" ∧
     sanitizeScrapedString (some "<script>bad</script>") 100 = none ∧
     sanitizeScrapedString (some "N/A") 100 = none ∧
     sanitizeScrapedString (some "na") 100 = none ∧
     sanitizeScrapedString (some "-") 100 = none ∧
     sanitizeScrapedString (some "UNKNOWN") 100 = none ∧
     sanitizeScrapedString (some "Not Available") 100 = none ∧
     sanitizeScrapedString (some "please CLICK HERE for details") 100 = none ∧
     sanitizeScrapedString (some "Learn More") 100 = none ∧
     sanitizeScrapedString (some "your settlement figure is ready") 100 = none ∧
     sanitizeScrapedString (some "the company offers cover") 100 = none ∧
     sanitizeInsuranceGroup (some "32E") = some "32E" ∧
     sanitizeInsuranceGroup (some "not rated") = none) := by
  have hnone : ∀ v m, ∀ w,
      sanitizeScrapedString (some v) m = some w →
        w = jsTrim v ∧ v ≠ "" ∧ jsTrim v ≠ "" ∧
        containsHtmlTag (jsTrim v).data = false ∧
        containsAngleOrQuote (jsTrim v).data = false ∧
        (jsTrim v).length ≤ m ∧
        garbageTest (jsTrim v).data = false := by
    intro v m w hw
    exact (sanitizeScrapedString_eq_some_iff v m w).mp hw
  refine ⟨?_, ?_, ?_, ?_, ?_, by decide⟩
  · intro v m h
    cases hr : sanitizeScrapedString (some v) m with
    | none => rfl
    | some w => exact absurd h (hnone v m w hr).2.2.1
  · intro v m h
    cases hr : sanitizeScrapedString (some v) m with
    | none => rfl
    | some w => simp [(hnone v m w hr).2.2.2.2.1] at h
  · intro v m h
    cases hr : sanitizeScrapedString (some v) m with
    | none => rfl
    | some w => exact absurd (hnone v m w hr).2.2.2.2.2.1 (by omega)
  · intro v m h
    cases hr : sanitizeScrapedString (some v) m with
    | none => rfl
    | some w => simp [(hnone v m w hr).2.2.2.2.2.2] at h
  · intro v m w hw
    exact (hnone v m w hw).1

/-- Claim C7 witness: the whitespace-only rejection rule applied to a
concrete value. -/
theorem C7_sanitizers_witness :
    sanitizeScrapedString (some "   ") 100 = none :=
  C7_sanitizers.1 "   " 100 (by decide)

/-- The digit run at the head of `ds ++ "cc"` is exactly `ds` when `ds` is
all digits. -/
theorem takeWhile_digits_cc (ds : List Char) (h : ds.all Char.isDigit = true) :
    (ds ++ ['c', 'c']).takeWhile Char.isDigit = ds := by
  induction ds with
  | nil => decide
  | cons d tl ih =>
    rw [List.all_cons, Bool.and_eq_true] at h
    simp [List.takeWhile_cons, h.1, ih h.2]

/-- The cc-pattern matcher captures the whole digit run of `ds ++ "cc"`. -/
theorem ccCheckAt_digits (ds : List Char) (hne : ds ≠ [])
    (h : ds.all Char.isDigit = true) :
    ccCheckAt (ds ++ ['c', 'c']) = some ds := by
  unfold ccCheckAt
  dsimp only
  rw [takeWhile_digits_cc ds h, List.drop_left]
  have h1 : ds.isEmpty = false := by
    cases ds with
    | nil => exact absurd rfl hne
    | cons a b => rfl
  rw [h1]
  rfl

/-- The leftmost cc-pattern search on `ds ++ "cc"` succeeds at position 0
with capture `ds`. -/
theorem ccSearch_digits (ds : List Char) (hne : ds ≠ [])
    (h : ds.all Char.isDigit = true) :
    ccSearch (ds ++ ['c', 'c']) = some ds := by
  have hc := ccCheckAt_digits ds hne h
  cases ds with
  | nil => exact absurd rfl hne
  | cons a tl =>
    rw [List.cons_append] at hc ⊢
    unfold ccSearch
    rw [hc]

/-- Claim C8 counterexample: the scraped engine-size text `"..L"` matches
the liter pattern with captured token `".."`, `parseFloat` of which is NaN;
the synthesized record's engine capacity is NaN (modelled `none`), not the
`0` the claim assigns to unparsable text. -/
theorem C8_counterexample :
    (buildVehicleFromScraped "AB12CDE" scrapedDotsL).engineCapacity = none ∧
    ¬(buildVehicleFromScraped "AB12CDE" scrapedDotsL).engineCapacity = some 0 := by
  decide

/-- Claim C8, amended: in the scraped-record synthesis the engine capacity
is `parseEngineCapacity` of the scraped engine-size text, which maps every
"NNNcc" text to the integer N, "N.Nl" texts to liters × 1000 rounded
(`"2.0L"` to 2000, `"1.6 L"` to 1600), absent text and text matching
neither pattern to 0 — but a liter-pattern match whose captured token has
no digits (such as `"..L"`) yields NaN rather than 0. -/
theorem C8_engine_parsing :
    (∀ reg sd, (buildVehicleFromScraped reg sd).engineCapacity =
       parseEngineCapacity sd.engineSize) ∧
    (∀ ds : List Char, ds ≠ [] → ds.all Char.isDigit = true →
       parseEngineCapacity (some ⟨ds ++ ['c', 'c']⟩) = some (Int.ofNat (digitsToNat ds))) ∧
    parseEngineCapacity (some "1998cc") = some 1998 ∧
    parseEngineCapacity (some "2.0L") = some 2000 ∧
    parseEngineCapacity (some "1.6 L") = some 1600 ∧
    (∀ s : String, ccSearch s.data = none → literSearch s.data = none →
       parseEngineCapacity (some s) = some 0) ∧
    parseEngineCapacity none = some 0 ∧
    parseEngineCapacity (some "big") = some 0 ∧
    parseEngineCapacity (some "..L") = none := by
  refine ⟨?_, ?_, by decide, by decide, by decide, ?_, by decide, by decide, by decide⟩
  · intro reg sd
    rfl
  · intro ds hne h
    have hs : (⟨ds ++ ['c', 'c']⟩ : String) ≠ "" := by
      intro hcontra
      have : ds ++ ['c', 'c'] = [] := congrArg String.data hcontra
      simp at this
    unfold parseEngineCapacity
    dsimp only
    rw [if_neg hs, ccSearch_digits ds hne h]
    rfl
  · intro s hcc hlit
    unfold parseEngineCapacity
    dsimp only
    by_cases hs : s = ""
    · rw [if_pos hs]
    · rw [if_neg hs, hcc, hlit]

/-- Claim C8 witness: the digits-cc rule and the neither-pattern rule
instantiated at `"42cc"` and `"xyz"`. -/
theorem C8_engine_parsing_witness :
    parseEngineCapacity (some ⟨['4', '2'] ++ ['c', 'c']⟩) =
      some (Int.ofNat (digitsToNat ['4', '2'])) ∧
    parseEngineCapacity (some "xyz") = some 0 :=
  ⟨C8_engine_parsing.2.1 ['4', '2'] (by decide) (by decide),
   C8_engine_parsing.2.2.2.2.2.1 "xyz" (by decide) (by decide)⟩

end CarScratch
